import Mathlib

/-!
Shallow embedding of the bounded retry-and-repair loop of
`local_langgraph_agent.py`: SQL sanitization, validation, the three graph
nodes, the conditional retry edge, and the composed loop.
Strings are modelled as `List Char`; the Python operations `str.replace`,
`str.strip`, `in` and `startswith` are modelled by the executable
functions below.
-/

namespace Samarth

abbrev Str := List Char

/-- Python `s.replace(pat, rep)` (leftmost, non-overlapping, global),
fuelled structurally so that it evaluates by kernel reduction. -/
def pyReplaceAux (pat rep : Str) : Nat → Str → Str
  | _, [] => []
  | 0, s => s
  | fuel+1, c :: rest =>
    if pat ≠ [] ∧ pat.isPrefixOf (c :: rest) = true then
      rep ++ pyReplaceAux pat rep fuel (rest.drop (pat.length - 1))
    else
      c :: pyReplaceAux pat rep fuel rest

def pyReplace (pat rep s : Str) : Str := pyReplaceAux pat rep s.length s

/-- Python `s.strip()`: remove leading and trailing whitespace. -/
def pyStrip (s : Str) : Str :=
  ((s.dropWhile Char.isWhitespace).reverse.dropWhile Char.isWhitespace).reverse

/-- Python substring test `pat in s`. -/
def containsTok (pat : Str) : Str → Bool
  | [] => pat.isEmpty
  | c :: rest => pat.isPrefixOf (c :: rest) || containsTok pat rest

/-- The four artifact tokens stripped by the generation stage. -/
def fenceSql : Str := "```sql".data

def fence : Str := "```".data

def commentClose : Str := "*/".data

def sqlLabel : Str := "SQL:".data

/-- Lines 105-112 of `local_langgraph_agent.py`: strip, remove all
occurrences of the fence, comment-close and label tokens, strip again. -/
def sanitizeSQL (s : Str) : Str :=
  pyStrip (pyReplace sqlLabel []
    (pyReplace commentClose []
      (pyReplace fence []
        (pyReplace fenceSql [] (pyStrip s)))))

def sqlVerbs : List Str :=
  ["select".data, "insert".data, "update".data, "delete".data, "create".data]

/-- Python `q.lower().startswith(("select","insert","update","delete","create"))`. -/
def startsWithVerb (s : Str) : Bool :=
  sqlVerbs.any (fun v => v.isPrefixOf (s.map Char.toLower))

/-- The generation-stage validity check (negation of the rejection test on
lines 115-117): non-empty, at least 10 characters, SQL-verb prefixed. -/
def validSQL (s : Str) : Bool :=
  !s.isEmpty && decide (10 ≤ s.length) && startsWithVerb s

/-- The LangGraph agent state (`AgentState` TypedDict in the source). -/
structure AgentState where
  question : Str
  schema : Str
  sql_query : Str
  data : Option Str
  answer : Option Str
  retries : Nat
deriving DecidableEq, Repr

def genFailureMsg : Str := "Error: Invalid SQL generated.".data

/-- `generate_sql_node`, with the model gateway's response for this single
invocation passed in (`Except.error` models a raised exception). -/
def generate_sql_node (resp : Except Str Str) (st : AgentState) : AgentState :=
  match resp with
  | Except.error e =>
      { st with sql_query := [],
                data := some ("Error during SQL generation: ".data ++ e) }
  | Except.ok content =>
      if validSQL (sanitizeSQL (pyStrip content)) = true then
        { st with sql_query := sanitizeSQL (pyStrip content) }
      else { st with sql_query := [], data := some genFailureMsg }

def noSqlMsg : Str := "Error: No valid SQL to execute.".data

def invalidExecMsg : Str := "Error: Invalid SQL, stopping execution.".data

/-- Line 147 re-stripping of the stored query before execution. -/
def execClean (q : Str) : Str :=
  pyStrip (pyReplace fence [] (pyReplace commentClose [] (pyStrip q)))

/-- `execute_sql_node`, parameterised by the query store (`Except.error`
models a raised exception from `db.run`). -/
def execute_sql_node (store : Str → Except Str Str) (st : AgentState) : AgentState :=
  if st.sql_query = [] then { st with data := some noSqlMsg }
  else if startsWithVerb (execClean st.sql_query) = false then
    { st with data := some invalidExecMsg }
  else
    match store (execClean st.sql_query) with
    | Except.ok r => { st with data := some r }
    | Except.error e => { st with data := some ("Error: ".data ++ e) }

/-- `synthesize_answer_node`, with the model gateway's response passed in. -/
def synthesize_answer_node (resp : Except Str Str) (st : AgentState) : AgentState :=
  match resp with
  | Except.ok a => { st with answer := some (pyStrip a) }
  | Except.error e =>
      { st with answer := some ("Error synthesizing answer: ".data ++ e) }

inductive Route where
  | retry
  | synthesize
deriving DecidableEq, Repr

def errorMarker : Str := "Error:".data

/-- `should_continue_or_retry`: the conditional edge out of execution.  It
returns the route together with the state it leaves behind (the source
mutates `state["retries"]` in place on the retry branch). -/
def should_continue_or_retry (st : AgentState) : Route × AgentState :=
  if 3 ≤ st.retries then (Route.synthesize, st)
  else if containsTok errorMarker (st.data.getD []) then
    (Route.retry, { st with retries := st.retries + 1 })
  else (Route.synthesize, st)

/-- Outcome of one full run: final state plus how often each node ran. -/
structure RunResult where
  final : AgentState
  genCalls : Nat
  execCalls : Nat
  synthCalls : Nat
deriving DecidableEq, Repr

/-- The compiled graph: generate → execute → (retry | synthesize), with
per-invocation oracles for the model gateway (`gen`, indexed by call
number) and the query store (`store`, indexed by call number). -/
def loopFrom (gen : Nat → Except Str Str) (store : Nat → Str → Except Str Str)
    (synthResp : Except Str Str) : Nat → Nat → Nat → AgentState → Option RunResult
  | 0, _, _, _ => none
  | fuel+1, g, e, st =>
    let st1 := generate_sql_node (gen g) st
    let st2 := execute_sql_node (store e) st1
    match should_continue_or_retry st2 with
    | (Route.retry, st3) => loopFrom gen store synthResp fuel (g+1) (e+1) st3
    | (Route.synthesize, st3) =>
        some ⟨synthesize_answer_node synthResp st3, g+1, e+1, 1⟩

/-- The initial state the caller builds: question, schema, retry counter 0. -/
def initState (question schema : Str) : AgentState :=
  ⟨question, schema, [], none, none, 0⟩

def runAgent (gen : Nat → Except Str Str) (store : Nat → Str → Except Str Str)
    (synthResp : Except Str Str) (question schema : Str) : Option RunResult :=
  loopFrom gen store synthResp 5 0 0 (initState question schema)

/-! ## Helper lemmas -/

theorem generate_retries_eq (resp : Except Str Str) (st : AgentState) :
    (generate_sql_node resp st).retries = st.retries := by
  cases resp with
  | error e => rfl
  | ok content =>
    by_cases h : validSQL (sanitizeSQL (pyStrip content)) = true
    · simp [generate_sql_node, h]
    · simp [generate_sql_node, h]

theorem execute_retries_eq (store : Str → Except Str Str) (st : AgentState) :
    (execute_sql_node store st).retries = st.retries := by
  unfold execute_sql_node
  split
  · rfl
  · split
    · rfl
    · split <;> rfl

theorem synthesize_retries_eq (resp : Except Str Str) (st : AgentState) :
    (synthesize_answer_node resp st).retries = st.retries := by
  unfold synthesize_answer_node
  cases resp <;> rfl

theorem decision_of_budget {st : AgentState} (h : 3 ≤ st.retries) :
    should_continue_or_retry st = (Route.synthesize, st) := by
  unfold should_continue_or_retry
  simp [h]

theorem decision_retry_inv {st st' : AgentState}
    (h : should_continue_or_retry st = (Route.retry, st')) :
    st' = { st with retries := st.retries + 1 } ∧ st.retries < 3 := by
  unfold should_continue_or_retry at h
  by_cases h1 : 3 ≤ st.retries
  · simp [h1] at h
  · by_cases h2 : containsTok errorMarker (st.data.getD []) = true
    · simp [h1, h2] at h
      exact ⟨h.symm, by omega⟩
    · simp [h1, h2] at h

theorem decision_syn_inv {st st' : AgentState}
    (h : should_continue_or_retry st = (Route.synthesize, st')) : st' = st := by
  unfold should_continue_or_retry at h
  by_cases h1 : 3 ≤ st.retries
  · simp [h1] at h
    exact h.symm
  · by_cases h2 : containsTok errorMarker (st.data.getD []) = true
    · simp [h1, h2] at h
    · simp [h1, h2] at h
      exact h.symm

theorem decision_retries_split (st : AgentState) :
    (should_continue_or_retry st).2.retries =
      st.retries + (if (should_continue_or_retry st).1 = Route.retry then 1 else 0) := by
  unfold should_continue_or_retry
  by_cases h1 : 3 ≤ st.retries
  · simp [h1]
  · by_cases h2 : containsTok errorMarker (st.data.getD []) = true
    · simp [h1, h2]
    · simp [h1, h2]

theorem loopFrom_isSome (gen : Nat → Except Str Str) (store : Nat → Str → Except Str Str)
    (synthResp : Except Str Str) :
    ∀ fuel g e st, 4 ≤ st.retries + fuel → 1 ≤ fuel →
      (loopFrom gen store synthResp fuel g e st).isSome = true := by
  intro fuel
  induction fuel with
  | zero => intro g e st _ h1; omega
  | succ n ih =>
    intro g e st h4 _
    simp only [loopFrom]
    have hre : (execute_sql_node (store e) (generate_sql_node (gen g) st)).retries
        = st.retries := by
      rw [execute_retries_eq, generate_retries_eq]
    rcases hd : should_continue_or_retry
        (execute_sql_node (store e) (generate_sql_node (gen g) st)) with ⟨route, st3⟩
    cases route with
    | synthesize => rfl
    | retry =>
      obtain ⟨hst3, hlt⟩ := decision_retry_inv hd
      have hr3 : st3.retries = st.retries + 1 := by
        rw [hst3]
        simp [hre]
      exact ih (g+1) (e+1) st3 (by omega) (by omega)

theorem loopFrom_retries_le (gen : Nat → Except Str Str) (store : Nat → Str → Except Str Str)
    (synthResp : Except Str Str) :
    ∀ fuel g e st r, st.retries ≤ 3 →
      loopFrom gen store synthResp fuel g e st = some r → r.final.retries ≤ 3 := by
  intro fuel
  induction fuel with
  | zero => intro g e st r _ h; simp [loopFrom] at h
  | succ n ih =>
    intro g e st r hle h
    simp only [loopFrom] at h
    have hre : (execute_sql_node (store e) (generate_sql_node (gen g) st)).retries
        = st.retries := by
      rw [execute_retries_eq, generate_retries_eq]
    rcases hd : should_continue_or_retry
        (execute_sql_node (store e) (generate_sql_node (gen g) st)) with ⟨route, st3⟩
    rw [hd] at h
    cases route with
    | retry =>
      obtain ⟨hst3, hlt⟩ := decision_retry_inv hd
      refine ih (g+1) (e+1) st3 r ?_ h
      rw [hst3]
      simp [hre]
      omega
    | synthesize =>
      have hst3 := decision_syn_inv hd
      injection h with h2
      rw [← h2]
      simp only [synthesize_retries_eq, hst3, hre]
      exact hle

theorem isPrefixOf_append_self (l t : Str) : l.isPrefixOf (l ++ t) = true := by
  induction l with
  | nil => simp [List.isPrefixOf]
  | cons c cs ih => simp [List.isPrefixOf, ih]

theorem pyReplaceAux_eq_self (pat rep : Str) :
    ∀ fuel s, containsTok pat s = false → pyReplaceAux pat rep fuel s = s := by
  intro fuel
  induction fuel with
  | zero => intro s _; cases s <;> rfl
  | succ n ih =>
    intro s h
    cases s with
    | nil => rfl
    | cons c rest =>
      simp only [containsTok, Bool.or_eq_false_iff] at h
      simp only [pyReplaceAux]
      rw [if_neg, ih rest h.2]
      intro hc
      rw [hc.2] at h
      exact absurd h.1 (by simp)

theorem pyReplace_eq_self (pat rep s : Str) (h : containsTok pat s = false) :
    pyReplace pat rep s = s :=
  pyReplaceAux_eq_self pat rep s.length s h

theorem pyReplaceAux_single (pat rep : Str) (hpat : pat ≠ []) :
    ∀ p q fuel, p.length < fuel →
      (∀ i, i < p.length → pat.isPrefixOf ((p ++ pat ++ q).drop i) = false) →
      containsTok pat q = false →
      pyReplaceAux pat rep fuel (p ++ pat ++ q) = p ++ rep ++ q := by
  intro p
  induction p with
  | nil =>
    intro q fuel hfuel _ hq
    cases fuel with
    | zero => omega
    | succ n =>
      cases pat with
      | nil => exact absurd rfl hpat
      | cons c pat' =>
        show pyReplaceAux (c :: pat') rep (n+1) (c :: (pat' ++ q)) = [] ++ rep ++ q
        simp only [pyReplaceAux]
        rw [if_pos]
        · have hdrop : (pat' ++ q).drop ((c :: pat').length - 1) = q := by
            simp [List.drop_left]
          rw [hdrop, pyReplaceAux_eq_self (c :: pat') rep n q hq]
          rfl
        · exact ⟨by simp, isPrefixOf_append_self (c :: pat') q⟩
  | cons a p' ih =>
    intro q fuel hfuel hno hq
    cases fuel with
    | zero => omega
    | succ n =>
      have h0 : pat.isPrefixOf (a :: (p' ++ pat ++ q)) = false := by
        have := hno 0 (by simp)
        simpa using this
      have hshift : ∀ i, i < p'.length →
          pat.isPrefixOf ((p' ++ pat ++ q).drop i) = false := by
        intro i hi
        have := hno (i+1) (by simpa using Nat.succ_lt_succ hi)
        simpa using this
      show pyReplaceAux pat rep (n+1) (a :: (p' ++ pat ++ q)) = (a :: p') ++ rep ++ q
      simp only [pyReplaceAux]
      rw [if_neg]
      · rw [ih q n (by simpa using hfuel) hshift hq]
        rfl
      · intro hc
        rw [hc.2] at h0
        exact absurd h0 (by simp)

theorem pyReplace_single (pat rep : Str) (hpat : pat ≠ []) (p q : Str)
    (hno : ∀ i, i < p.length → pat.isPrefixOf ((p ++ pat ++ q).drop i) = false)
    (hq : containsTok pat q = false) :
    pyReplace pat rep (p ++ pat ++ q) = p ++ rep ++ q := by
  apply pyReplaceAux_single pat rep hpat p q _ _ hno hq
  have : pat.length ≠ 0 := by
    intro h0
    exact hpat (List.length_eq_zero.mp h0)
  simp [List.length_append]
  omega

/-- Whether a string keeps both edges under Python `strip` (no leading or
trailing whitespace). -/
def noEdgeWs (s : Str) : Prop :=
  s.dropWhile Char.isWhitespace = s ∧ s.reverse.dropWhile Char.isWhitespace = s.reverse

instance (s : Str) : Decidable (noEdgeWs s) := by
  unfold noEdgeWs
  infer_instance

theorem pyStrip_of_noEdgeWs {s : Str} (h : noEdgeWs s) : pyStrip s = s := by
  unfold pyStrip
  rw [h.1, h.2, List.reverse_reverse]

/-! ## Concrete stubs shared by witnesses and concrete runs -/

def okGen : Nat → Except Str Str := fun _ => Except.ok "SELECT a FROM t;".data

def okStore : Nat → Str → Except Str Str := fun _ _ => Except.ok "[(1,)]".data

def okSynth : Except Str Str := Except.ok "ans".data

/-! ## Claim theorems -/

/-- Claim C1: for every model-gateway and query-store behaviour and every
question, the composed loop reaches END, the final state satisfies
`retries ≤ 3`, and the retry decision evaluated at any state with
`retries ≥ 3` routes to synthesis regardless of the error state. -/
theorem c1_retry_budget (gen : Nat → Except Str Str)
    (store : Nat → Str → Except Str Str) (synthResp : Except Str Str)
    (question schema : Str) (st : AgentState)
    (h3 : 3 ≤ st.retries) (r : RunResult)
    (hr : runAgent gen store synthResp question schema = some r) :
    (runAgent gen store synthResp question schema).isSome = true ∧
    r.final.retries ≤ 3 ∧
    should_continue_or_retry st = (Route.synthesize, st) := by
  refine ⟨?_, ?_, decision_of_budget h3⟩
  · exact loopFrom_isSome gen store synthResp 5 0 0 (initState question schema)
      (by simp [initState]) (by omega)
  · exact loopFrom_retries_le gen store synthResp 5 0 0 (initState question schema) r
      (by simp [initState]) hr

/-- Claim C1, witnessed at concrete oracles and a concrete saturated state. -/
theorem c1_retry_budget_witness :
    3 ≤ (⟨"q".data, "s".data, [], none, none, 3⟩ : AgentState).retries ∧
    ((runAgent okGen okStore okSynth "q".data "sch".data).isSome = true ∧
      (⟨⟨"q".data, "sch".data, "SELECT a FROM t;".data, some "[(1,)]".data,
          some "ans".data, 0⟩, 1, 1, 1⟩ : RunResult).final.retries ≤ 3 ∧
      should_continue_or_retry ⟨"q".data, "s".data, [], none, none, 3⟩ =
        (Route.synthesize, ⟨"q".data, "s".data, [], none, none, 3⟩)) :=
  ⟨by decide, c1_retry_budget okGen okStore okSynth "q".data "sch".data
    ⟨"q".data, "s".data, [], none, none, 3⟩ (by decide)
    ⟨⟨"q".data, "sch".data, "SELECT a FROM t;".data, some "[(1,)]".data,
        some "ans".data, 0⟩, 1, 1, 1⟩ (by decide)⟩

def c2state : AgentState :=
  ⟨"q".data, "s".data, "ignored".data, some "rows Error: down".data, none, 0⟩

/-- Claim C2 counterexample: `last_result` does not begin with the error
marker, yet the decision takes the retry branch and increments the
counter, because the source tests substring containment (`"Error:" in
data`), not a marker at the start. -/
theorem c2_counterexample :
    errorMarker.isPrefixOf (c2state.data.getD []) = false ∧
    should_continue_or_retry c2state = (Route.retry, { c2state with retries := 1 }) := by
  decide

/-- Claim C2 as amended: below the budget the decision retries,
incrementing the counter by exactly 1, iff the error marker occurs
anywhere in `last_result`; otherwise it synthesizes unchanged. -/
theorem c2_amended (st : AgentState) (hlt : st.retries < 3) :
    (containsTok errorMarker (st.data.getD []) = true →
      should_continue_or_retry st =
        (Route.retry, { st with retries := st.retries + 1 })) ∧
    (containsTok errorMarker (st.data.getD []) = false →
      should_continue_or_retry st = (Route.synthesize, st)) := by
  have h1 : ¬ 3 ≤ st.retries := by omega
  constructor <;> intro h <;> simp [should_continue_or_retry, h1, h]

def c2wstate : AgentState :=
  ⟨"q".data, "s".data, [], some "Error: boom".data, none, 1⟩

/-- Claim C2 amended, witnessed at a concrete error state. -/
theorem c2_amended_witness :
    c2wstate.retries < 3 ∧
    should_continue_or_retry c2wstate = (Route.retry, { c2wstate with retries := 2 }) :=
  ⟨by decide, (c2_amended c2wstate (by decide)).1 (by decide)⟩

def c3gen : Nat → Except Str Str := fun _ => Except.ok "not sql".data

def c3synth : Except Str Str := Except.ok "not sql".data

/-- Claim C3 counterexample: with the model stub always answering
"not sql", the loop terminates, but the generation node runs 4 times (one
initial attempt plus 3 retries) before synthesis, not 3. -/
theorem c3_counterexample :
    runAgent c3gen okStore c3synth "asdf;;;".data "sch".data =
      some ⟨⟨"asdf;;;".data, "sch".data, [], some noSqlMsg, some "not sql".data, 3⟩,
        4, 4, 1⟩ ∧
    (⟨⟨"asdf;;;".data, "sch".data, [], some noSqlMsg, some "not sql".data, 3⟩,
        4, 4, 1⟩ : RunResult).genCalls ≠ 3 := by
  decide

/-- Claim C3 as amended: for every question, schema and query store, the
run with the always-invalid model stub terminates (no crash, no infinite
loop) with the non-empty synthesized answer, after exactly
RETRY_BUDGET + 1 = 4 generation attempts and one synthesis. -/
theorem c3_amended (question schema : Str) (store : Nat → Str → Except Str Str) :
    runAgent c3gen store c3synth question schema =
      some ⟨⟨question, schema, [], some noSqlMsg, some "not sql".data, 3⟩, 4, 4, 1⟩ ∧
    ("not sql".data : Str) ≠ [] :=
  ⟨rfl, by decide⟩

def probeStore : Str → Except Str Str := fun _ => Except.ok "STORE WAS CALLED".data

def constErrStore : Str → Except Str Str := fun _ => Except.error "store failure".data

def c4state : AgentState := ⟨"q".data, "s".data, "SELECT 1;".data, none, none, 0⟩

/-- Claim C4 counterexample: `current_sql = "SELECT 1;"` re-fails the
generation stage's validation (9 characters, below the 10-character
minimum), yet the execution stage submits it to the query store: the
store's reply, not an error, lands in `data`. -/
theorem c4_counterexample :
    validSQL c4state.sql_query = false ∧
    (execute_sql_node probeStore c4state).data = some "STORE WAS CALLED".data := by
  decide

/-- Claim C4 as amended: the execution stage short-circuits to an error
result, independently of the query store, exactly when `current_sql` is
empty or fails the re-applied verb check on the re-stripped query; the
10-character minimum-length check is not re-applied. -/
theorem c4_amended (store store' : Str → Except Str Str) (st : AgentState)
    (h : st.sql_query = [] ∨ startsWithVerb (execClean st.sql_query) = false) :
    execute_sql_node store st = execute_sql_node store' st ∧
    (execute_sql_node store st).data =
      some (if st.sql_query = [] then noSqlMsg else invalidExecMsg) := by
  by_cases hq : st.sql_query = []
  · simp [execute_sql_node, hq]
  · have hv : startsWithVerb (execClean st.sql_query) = false := h.resolve_left hq
    simp [execute_sql_node, hq, hv]

def c4wstate : AgentState :=
  ⟨"q".data, "s".data, "DROP TABLE users;".data, none, none, 0⟩

/-- Claim C4 amended, witnessed at a query failing the verb check. -/
theorem c4_amended_witness :
    (c4wstate.sql_query = [] ∨ startsWithVerb (execClean c4wstate.sql_query) = false) ∧
    (execute_sql_node probeStore c4wstate = execute_sql_node constErrStore c4wstate ∧
      (execute_sql_node probeStore c4wstate).data =
        some (if c4wstate.sql_query = [] then noSqlMsg else invalidExecMsg)) :=
  ⟨by decide, c4_amended probeStore constErrStore c4wstate (by decide)⟩

def wrappedSQL : Str := "```sql\nSELECT 1;\n```".data

/-- Claim C5 counterexample: sanitization does map the fenced output to
"SELECT 1;", but the `current_sql` the generation stage stores is not
"SELECT 1;" — the 9-character result fails the 10-character minimum, so
the stage stores the empty string. -/
theorem c5_counterexample :
    sanitizeSQL wrappedSQL = "SELECT 1;".data ∧
    (generate_sql_node (Except.ok wrappedSQL) (initState "q".data "s".data)).sql_query
      ≠ "SELECT 1;".data := by
  decide

/-- Claim C5 as amended: sanitizing the fenced output and the bare string
yield the identical text "SELECT 1;", and the generation stage stores an
identical `current_sql` for both inputs (the empty string, since the
9-character result fails validation). -/
theorem c5_amended :
    sanitizeSQL wrappedSQL = "SELECT 1;".data ∧
    sanitizeSQL "SELECT 1;".data = "SELECT 1;".data ∧
    generate_sql_node (Except.ok wrappedSQL) (initState "q".data "s".data) =
      generate_sql_node (Except.ok "SELECT 1;".data) (initState "q".data "s".data) ∧
    (generate_sql_node (Except.ok wrappedSQL) (initState "q".data "s".data)).sql_query
      = [] := by
  decide

/-- Claim C6: every 9-character string with verb head "SELECT" is rejected
by the generation-stage validation, and every string of 10 or more
characters whose lowercased text starts with one of the five SQL verbs is
accepted. -/
theorem c6_validation_boundary (s t : Str)
    (h9 : s.length = 9) (hsel : "SELECT".data.isPrefixOf s = true)
    (h10 : 10 ≤ t.length) (hverb : startsWithVerb t = true) :
    validSQL s = false ∧ validSQL t = true := by
  constructor
  · have hlen : decide (10 ≤ s.length) = false := by
      rw [h9]
      rfl
    simp [validSQL, hlen]
  · have hne : t.isEmpty = false := by
      cases t with
      | nil => simp at h10
      | cons c cs => rfl
    have hlen : decide (10 ≤ t.length) = true := decide_eq_true h10
    simp [validSQL, hne, hlen, hverb]

/-- Claim C6, witnessed at the boundary strings. -/
theorem c6_validation_boundary_witness :
    ("SELECT 1;".data.length = 9 ∧
      "SELECT".data.isPrefixOf "SELECT 1;".data = true ∧
      10 ≤ "select * from t".data.length ∧
      startsWithVerb "select * from t".data = true) ∧
    (validSQL "SELECT 1;".data = false ∧ validSQL "select * from t".data = true) :=
  ⟨by decide, c6_validation_boundary "SELECT 1;".data "select * from t".data
    (by decide) (by decide) (by decide) (by decide)⟩

def c7gen : Nat → Except Str Str := fun _ => Except.ok "SELECT a FROM t;".data

def c7store : Nat → Str → Except Str Str :=
  fun e _ => if e < 2 then Except.error "db down".data else Except.ok "[(1,)]".data

/-- Claim C7: with a store stub failing twice then succeeding and a model
producing valid SQL each time, the loop runs generation 3 times,
execution 3 times, ends with `retries = 2`, and synthesis runs exactly
once on the successful result "[(1,)]". -/
theorem c7_fail_fail_succeed :
    runAgent c7gen c7store okSynth "q".data "sch".data =
      some ⟨⟨"q".data, "sch".data, "SELECT a FROM t;".data, some "[(1,)]".data,
        some "ans".data, 2⟩, 3, 3, 1⟩ := by
  decide

/-- Claim C8: whenever the query store fails on the executed query, the
execution stage stores "Error: <detail>" into `last_result` and touches
nothing else; the node is a total function of the state and the store's
response, so no failure escapes the stage boundary. -/
theorem c8_store_error_captured (store : Str → Except Str Str) (st : AgentState)
    (e : Str) (hne : st.sql_query ≠ [])
    (hverb : startsWithVerb (execClean st.sql_query) = true)
    (hs : store (execClean st.sql_query) = Except.error e) :
    (execute_sql_node store st).data = some ("Error: ".data ++ e) ∧
    (execute_sql_node store st).answer = st.answer ∧
    (execute_sql_node store st).retries = st.retries := by
  simp [execute_sql_node, hne, hverb, hs]

def errStoreMsg : Str := "no such table: t".data

def errStore : Str → Except Str Str := fun _ => Except.error errStoreMsg

def c8state : AgentState :=
  ⟨"q".data, "s".data, "SELECT a FROM t;".data, none, none, 1⟩

/-- Claim C8, witnessed at a concrete failing store. -/
theorem c8_store_error_captured_witness :
    (c8state.sql_query ≠ [] ∧
      startsWithVerb (execClean c8state.sql_query) = true ∧
      errStore (execClean c8state.sql_query) = Except.error errStoreMsg) ∧
    ((execute_sql_node errStore c8state).data = some ("Error: ".data ++ errStoreMsg) ∧
      (execute_sql_node errStore c8state).answer = c8state.answer ∧
      (execute_sql_node errStore c8state).retries = c8state.retries) :=
  ⟨⟨by decide, by decide, rfl⟩,
    c8_store_error_captured errStore c8state errStoreMsg (by decide) (by decide) rfl⟩

/-- Claim C9: each node returns `retries` equal to its input's on every
path; the decision function is the only place it changes, adding exactly
1 on the retry branch and 0 otherwise, hence `retries` is monotonically
non-decreasing. -/
theorem c9_retries_frame (resp presp : Except Str Str)
    (store : Str → Except Str Str) (st : AgentState) :
    (generate_sql_node resp st).retries = st.retries ∧
    (execute_sql_node store st).retries = st.retries ∧
    (synthesize_answer_node presp st).retries = st.retries ∧
    (should_continue_or_retry st).2.retries =
      st.retries + (if (should_continue_or_retry st).1 = Route.retry then 1 else 0) ∧
    st.retries ≤ (should_continue_or_retry st).2.retries := by
  refine ⟨generate_retries_eq resp st, execute_retries_eq store st,
    synthesize_retries_eq presp st, decision_retries_split st, ?_⟩
  rw [decision_retries_split st]
  exact Nat.le_add_right _ _

/-- Claim C10: sanitization removes token occurrences anywhere in the
generated text, not only surrounding fences: a comment-close token in the
body of the query is deleted, so the stored text differs from the
merely whitespace-stripped original; the final three conjuncts exhibit
in-body removal of the other three tokens. -/
theorem c10_global_removal (p q : Str)
    (hws : noEdgeWs (p ++ commentClose ++ q))
    (hws2 : noEdgeWs (p ++ q))
    (hf1 : containsTok fenceSql (p ++ commentClose ++ q) = false)
    (hf2 : containsTok fence (p ++ commentClose ++ q) = false)
    (hstar : ∀ i, i < p.length →
      commentClose.isPrefixOf ((p ++ commentClose ++ q).drop i) = false)
    (hstarq : containsTok commentClose q = false)
    (hlabel : containsTok sqlLabel (p ++ q) = false) :
    sanitizeSQL (p ++ commentClose ++ q) = p ++ q ∧
    pyStrip (p ++ commentClose ++ q) = p ++ commentClose ++ q ∧
    p ++ q ≠ p ++ commentClose ++ q ∧
    sanitizeSQL "SELECT a, '```' AS x FROM t;".data = "SELECT a, '' AS x FROM t;".data ∧
    sanitizeSQL "SELECT a, '```sql' AS x FROM t;".data
      = "SELECT a, '' AS x FROM t;".data ∧
    sanitizeSQL "SELECT a, 'SQL:' AS x FROM t;".data
      = "SELECT a, '' AS x FROM t;".data := by
  have hstrip := pyStrip_of_noEdgeWs hws
  have hstrip2 := pyStrip_of_noEdgeWs hws2
  refine ⟨?_, hstrip, ?_, by decide, by decide, by decide⟩
  · unfold sanitizeSQL
    rw [hstrip, pyReplace_eq_self fenceSql [] _ hf1, pyReplace_eq_self fence [] _ hf2,
        pyReplace_single commentClose [] (by decide) p q hstar hstarq]
    simp only [List.append_nil]
    rw [pyReplace_eq_self sqlLabel [] _ hlabel, hstrip2]
  · intro heq
    have := congrArg List.length heq
    simp [List.length_append, commentClose] at this
    omega

def c10p : Str := "SELECT '".data

def c10q : Str := "' FROM t;".data

/-- Claim C10, witnessed at a query carrying a comment-close token inside
a string literal. -/
theorem c10_global_removal_witness :
    (noEdgeWs (c10p ++ commentClose ++ c10q) ∧ noEdgeWs (c10p ++ c10q) ∧
      containsTok fenceSql (c10p ++ commentClose ++ c10q) = false ∧
      containsTok fence (c10p ++ commentClose ++ c10q) = false ∧
      (∀ i, i < c10p.length →
        commentClose.isPrefixOf ((c10p ++ commentClose ++ c10q).drop i) = false) ∧
      containsTok commentClose c10q = false ∧
      containsTok sqlLabel (c10p ++ c10q) = false) ∧
    sanitizeSQL (c10p ++ commentClose ++ c10q) = c10p ++ c10q :=
  ⟨⟨by decide, by decide, by decide, by decide, by decide, by decide, by decide⟩,
    (c10_global_removal c10p c10q (by decide) (by decide) (by decide) (by decide)
      (by decide) (by decide) (by decide)).1⟩

end Samarth
